import Mathlib

/-!
Verification of `miflora-exporter.py`, a Prometheus exporter for Xiaomi
MiFlora plant probes.

The script is embedded shallowly:

* JSON parsing of the registry file is modelled by a `ReadResult` input
  (the outcome of `open` + `json.load`): the file may be unreadable, may
  fail to parse, or may parse to a `Json` value.  Per the documented
  registry format, object members map identifier strings to plant-name
  strings.
* The Prometheus metric registry is a `Metrics` record of total functions
  from label tuples to values; a gauge child that was never set is `none`.
  Log output (`logging.error` / `logging.info`) is carried alongside as a
  list of structured `LogEntry` values.
* A BLE probe (`MiFloraPoller`) is a `Poller` record whose reads either
  return a value (`Except.ok`) or raise (`Except.error msg`).  Reads are
  modelled as pure per-cycle outcomes.
* Externally visible actions of `main` other than metric mutation
  (starting the HTTP server, constructing pollers, the BLE scan, printed
  lines) are recorded in an `Event` trace.
-/

/-- A JSON value as parsed from the registry file.  Per the documented
registry format, object members carry plant-name strings. -/
inductive Json where
  | null : Json
  | bool (b : Bool) : Json
  | num (n : Int) : Json
  | str (s : String) : Json
  | arr (elems : List Json) : Json
  | obj (kvs : List (String × String)) : Json

/-- True exactly when the JSON value is an object, mirroring
`isinstance(plants, dict)` on line 26. -/
def Json.isObj : Json → Bool
  | .obj _ => true
  | _ => false

/-- Outcome of `open(file)` followed by `json.load(f)` (lines 24-25):
the file may be missing/unreadable, its contents may fail to parse as
JSON, or parsing may yield a JSON value. -/
inductive ReadResult where
  | readFailure : ReadResult
  | parseFailure : ReadResult
  | parsed (j : Json) : ReadResult

/-- The fatal configuration-error taxonomy of the loader: file missing or
unreadable, contents unparseable, or top-level value not an object
(the `assert isinstance(plants, dict)` on line 26). -/
inductive ConfigError where
  | unreadable : ConfigError
  | unparseable : ConfigError
  | notAnObject : ConfigError
deriving DecidableEq, Repr

/-- The loader `load_plants` (lines 23-27): propagate read and parse failures,
reject a top-level value that is not an object, and otherwise return the
parsed mapping unchanged. -/
def load_plants : ReadResult → Except ConfigError (List (String × String))
  | .readFailure => .error .unreadable
  | .parseFailure => .error .unparseable
  | .parsed (Json.obj kvs) => .ok kvs
  | .parsed _ => .error .notAnObject

/-- The BLE interface of one probe (`MiFloraPoller`): each read either returns
a value or raises with an error message. -/
structure Poller where
  firmware_version : Except String String
  battery_level : Except String Int
  parameter_value : String → Except String Int

/-- True when the read returns instead of raising. -/
def readOk {α : Type} : Except String α → Bool
  | .ok _ => true
  | .error _ => false

/-- All five steady-state reads of a probe return without raising. -/
def readsOk (p : Poller) : Bool :=
  readOk p.battery_level
    && readOk (p.parameter_value "conductivity")
    && readOk (p.parameter_value "light")
    && readOk (p.parameter_value "moisture")
    && readOk (p.parameter_value "temperature")

/-- A structured log line: the `logging.error` calls of lines 73 and 86,
which report the probe identifier, plant name and error detail, and the
per-probe `logging.info` line of line 74. -/
inductive LogEntry where
  | couldNotRead (mac plant err : String) : LogEntry
  | infoInit (plant mac : String) : LogEntry
deriving DecidableEq, Repr

/-- The process-wide metric registry plus the log stream.  Field names
follow the exported metric names of lines 14-20; a gauge child never set
is `none`. -/
structure Metrics where
  miflora_errors : String → String → Nat
  miflora_battery_level_pct : String → Option Int
  miflora_conductivity : String → Option Int
  miflora_firmware_version : String → String → Option Int
  miflora_light : String → Option Int
  miflora_moisture : String → Option Int
  miflora_temperature_c : String → Option Int
  logs : List LogEntry

/-- The metric registry at process start: all counters 0, no gauge child
set, no log output. -/
def startMetrics : Metrics where
  miflora_errors := fun _ _ => 0
  miflora_battery_level_pct := fun _ => none
  miflora_conductivity := fun _ => none
  miflora_firmware_version := fun _ _ => none
  miflora_light := fun _ => none
  miflora_moisture := fun _ => none
  miflora_temperature_c := fun _ => none
  logs := []

/-- Mirrors `error_count_metric.labels(mac=mac, plant=plant).inc()`. -/
def incError (st : Metrics) (mac plant : String) : Metrics :=
  { st with miflora_errors := fun m q =>
      if m = mac ∧ q = plant then st.miflora_errors m q + 1
      else st.miflora_errors m q }

/-- Mirrors the `logging.error` call reporting a failed probe read. -/
def logError (st : Metrics) (mac plant err : String) : Metrics :=
  { st with logs := st.logs ++ [LogEntry.couldNotRead mac plant err] }

/-- Mirrors `battery_level_metric.labels(plant=plant).set(v)`. -/
def setBattery (st : Metrics) (plant : String) (v : Int) : Metrics :=
  { st with miflora_battery_level_pct := fun q =>
      if q = plant then some v else st.miflora_battery_level_pct q }

/-- Mirrors `conductivity_metric.labels(plant=plant).set(v)`. -/
def setConductivity (st : Metrics) (plant : String) (v : Int) : Metrics :=
  { st with miflora_conductivity := fun q =>
      if q = plant then some v else st.miflora_conductivity q }

/-- Mirrors `light_metric.labels(plant=plant).set(v)`. -/
def setLight (st : Metrics) (plant : String) (v : Int) : Metrics :=
  { st with miflora_light := fun q =>
      if q = plant then some v else st.miflora_light q }

/-- Mirrors `moisture_metric.labels(plant=plant).set(v)`. -/
def setMoisture (st : Metrics) (plant : String) (v : Int) : Metrics :=
  { st with miflora_moisture := fun q =>
      if q = plant then some v else st.miflora_moisture q }

/-- Mirrors `temperature_metric.labels(plant=plant).set(v)`. -/
def setTemperature (st : Metrics) (plant : String) (v : Int) : Metrics :=
  { st with miflora_temperature_c := fun q =>
      if q = plant then some v else st.miflora_temperature_c q }

/-- Mirrors `firmware_version_metric.labels(plant=plant, version=version).set(1)`. -/
def setFirmware (st : Metrics) (plant version : String) : Metrics :=
  { st with miflora_firmware_version := fun q w =>
      if q = plant ∧ w = version then some 1
      else st.miflora_firmware_version q w }

/-- The `try`/`except` body for one probe in the steady-state loop
(lines 78-86): attempt battery, conductivity, light, moisture and
temperature in that order, setting each gauge as its read returns; the
first read that raises aborts the remaining reads, increments the error
counter once and logs the failure. -/
def pollProbe (st : Metrics) (mac plant : String) (p : Poller) : Metrics :=
  match p.battery_level with
  | .error e => logError (incError st mac plant) mac plant e
  | .ok b =>
    let st1 := setBattery st plant b
    match p.parameter_value "conductivity" with
    | .error e => logError (incError st1 mac plant) mac plant e
    | .ok c =>
      let st2 := setConductivity st1 plant c
      match p.parameter_value "light" with
      | .error e => logError (incError st2 mac plant) mac plant e
      | .ok li =>
        let st3 := setLight st2 plant li
        match p.parameter_value "moisture" with
        | .error e => logError (incError st3 mac plant) mac plant e
        | .ok mo =>
          let st4 := setMoisture st3 plant mo
          match p.parameter_value "temperature" with
          | .error e => logError (incError st4 mac plant) mac plant e
          | .ok t => setTemperature st4 plant t

/-- One pass of `for (mac, plant, poller) in pollers` in the steady-state
loop (line 77). -/
def pollCycle (st : Metrics) (pollers : List (String × String × Poller)) : Metrics :=
  pollers.foldl (fun s x => pollProbe s x.1 x.2.1 x.2.2) st

/-- One iteration of `while True` (lines 76-87): poll every probe, then
`time.sleep(10 * 60)`; the second component is the slept duration in
seconds. -/
def loopBody (st : Metrics) (pollers : List (String × String × Poller)) :
    Metrics × Nat :=
  (pollCycle st pollers, 10 * 60)

/-- The metric state after `n` steady-state cycles over a fixed pollers
list. -/
def runCycles (pollers : List (String × String × Poller)) (st : Metrics) :
    Nat → Metrics
  | 0 => st
  | n + 1 => runCycles pollers (loopBody st pollers).1 n

/-- The one-time firmware initialization for one probe (lines 67-74):
set the firmware gauge on success, or count and log the error on failure;
either way log the info line afterwards. -/
def initProbe (st : Metrics) (mac plant : String) (p : Poller) : Metrics :=
  let st1 :=
    match p.firmware_version with
    | .ok v => setFirmware st plant v
    | .error e => logError (incError st mac plant) mac plant e
  { st1 with logs := st1.logs ++ [LogEntry.infoInit plant mac] }

/-- The whole firmware-initialization loop of lines 67-74. -/
def initAll (st : Metrics) (pollers : List (String × String × Poller)) : Metrics :=
  pollers.foldl (fun s x => initProbe s x.1 x.2.1 x.2.2) st

/-- An externally visible action of `main` other than a metric mutation:
the BLE discovery scan (`miflora_scan`, line 32), a printed line
(lines 36 and 39), `start_http_server` (line 59), and the construction of
a `MiFloraPoller` (line 63). -/
inductive Event where
  | bleScan : Event
  | printLine (s : String) : Event
  | serverStart (port : Nat) : Event
  | pollerMade (mac : String) : Event
deriving DecidableEq, Repr

/-- Lines 31-33 of `scan_for_new_devices`: the set difference of the
scanned identifiers and the registry keys.  Python iterates the
difference as a `set`; here it is the deduplicated scan result filtered
by non-membership in the registry keys, which realizes one iteration
order of that set.  The scan result itself is a parameter, with the
performed scan recorded as an `Event`. -/
def new_macs (plants : List (String × String))
    (scanResult : List String) : List String :=
  let known_macs := plants.map Prod.fst
  scanResult.dedup.filter fun m => decide (m ∉ known_macs)

/-- The print statements of lines 35-39. -/
def scan_for_new_devices (plants : List (String × String))
    (scanResult : List String) : List Event :=
  Event.bleScan ::
    (if (new_macs plants scanResult).length = 0
     then [Event.printLine "no new devices detected"]
     else (new_macs plants scanResult).map
       fun m => Event.printLine ("new device: " ++ m))

/-- The lines printed to stdout within a trace. -/
def printedLines (evs : List Event) : List String :=
  evs.filterMap fun e =>
    match e with
    | .printLine s => some s
    | _ => none

/-- How `main` ends: an uncaught configuration failure (non-zero exit), a
normal return after scan mode (exit 0), or the never-returning polling
loop, described by the metric state after each number of completed
cycles. -/
inductive MainResult where
  | configError (e : ConfigError) : MainResult
  | scanExit : MainResult
  | polling (after : Nat → Metrics) : MainResult

/-- The body of `main` (lines 42-87) after argument parsing: load the registry; in
scan mode run the discovery scan and return; otherwise start the HTTP
server, construct one poller per registry entry, run the one-time
firmware initialization and enter the polling loop.  `pollerOf` gives
the per-identifier probe behaviour; the first component is the trace of
externally visible events up to entering the loop (all of them, for the
terminating paths). -/
def mainRun (fileRes : ReadResult) (scanFlag : Bool) (port : Nat)
    (scanResult : List String) (pollerOf : String → Poller) :
    List Event × MainResult :=
  match load_plants fileRes with
  | .error e => ([], .configError e)
  | .ok plants =>
    if scanFlag then
      (scan_for_new_devices plants scanResult, .scanExit)
    else
      let pollers := plants.map fun kv => (kv.1, kv.2, pollerOf kv.1)
      let st0 := initAll startMetrics pollers
      (Event.serverStart port :: pollers.map fun x => Event.pollerMade x.1,
       .polling (runCycles pollers st0))

/-- C4: for every file whose contents parse as a JSON object (possibly
empty), `load_plants` returns exactly the parsed key/value pairs,
unchanged — no validation, no deduplication, and (being a pure function
of the read outcome) no side effect beyond the read. -/
theorem C4_loader_returns_mapping_unchanged (kvs : List (String × String)) :
    load_plants (ReadResult.parsed (Json.obj kvs)) = Except.ok kvs := rfl

/-- C2: if all five reads of a probe return, the cycle sets the five
gauges for its plant to exactly the returned values, and the error
counters are untouched. -/
theorem C2_success_updates_all_gauges (st : Metrics) (mac plant : String)
    (p : Poller) (b c li mo t : Int)
    (hb : p.battery_level = .ok b)
    (hc : p.parameter_value "conductivity" = .ok c)
    (hl : p.parameter_value "light" = .ok li)
    (hm : p.parameter_value "moisture" = .ok mo)
    (ht : p.parameter_value "temperature" = .ok t) :
    (pollProbe st mac plant p).miflora_battery_level_pct plant = some b ∧
    (pollProbe st mac plant p).miflora_conductivity plant = some c ∧
    (pollProbe st mac plant p).miflora_light plant = some li ∧
    (pollProbe st mac plant p).miflora_moisture plant = some mo ∧
    (pollProbe st mac plant p).miflora_temperature_c plant = some t ∧
    (pollProbe st mac plant p).miflora_errors = st.miflora_errors := by
  simp [pollProbe, hb, hc, hl, hm, ht, setBattery, setConductivity, setLight,
    setMoisture, setTemperature]

/-- A probe whose every read succeeds, for witnesses. -/
def pollerGood : Poller where
  firmware_version := .ok "3.2.1"
  battery_level := .ok 95
  parameter_value := fun s =>
    if s = "conductivity" then .ok 120
    else if s = "light" then .ok 300
    else if s = "moisture" then .ok 40
    else if s = "temperature" then .ok 21
    else .error "unknown parameter"

theorem C2_success_updates_all_gauges_witness :
    (pollProbe startMetrics "C4:7A:00:00:00:01" "rose" pollerGood).miflora_battery_level_pct "rose" = some 95 ∧
    (pollProbe startMetrics "C4:7A:00:00:00:01" "rose" pollerGood).miflora_conductivity "rose" = some 120 ∧
    (pollProbe startMetrics "C4:7A:00:00:00:01" "rose" pollerGood).miflora_light "rose" = some 300 ∧
    (pollProbe startMetrics "C4:7A:00:00:00:01" "rose" pollerGood).miflora_moisture "rose" = some 40 ∧
    (pollProbe startMetrics "C4:7A:00:00:00:01" "rose" pollerGood).miflora_temperature_c "rose" = some 21 ∧
    (pollProbe startMetrics "C4:7A:00:00:00:01" "rose" pollerGood).miflora_errors = startMetrics.miflora_errors :=
  C2_success_updates_all_gauges startMetrics "C4:7A:00:00:00:01" "rose"
    pollerGood 95 120 300 40 21 rfl rfl rfl rfl rfl

/-- C1: the five reads of one probe are not individually fault-isolated.
Whichever of the five reads (battery, conductivity, light, moisture,
temperature, in that order) raises first, the reads after it are skipped,
the error counter for (identifier, plant) grows by exactly 1, every gauge
already set earlier in the cycle keeps its new value, and every skipped
gauge keeps its prior value — no rollback. -/
theorem C1_no_per_read_fault_isolation (st : Metrics) (mac plant : String)
    (p : Poller) :
    (∀ e, p.battery_level = .error e →
      (pollProbe st mac plant p).miflora_errors mac plant
          = st.miflora_errors mac plant + 1 ∧
      (pollProbe st mac plant p).miflora_battery_level_pct
          = st.miflora_battery_level_pct ∧
      (pollProbe st mac plant p).miflora_conductivity = st.miflora_conductivity ∧
      (pollProbe st mac plant p).miflora_light = st.miflora_light ∧
      (pollProbe st mac plant p).miflora_moisture = st.miflora_moisture ∧
      (pollProbe st mac plant p).miflora_temperature_c
          = st.miflora_temperature_c) ∧
    (∀ b e, p.battery_level = .ok b →
        p.parameter_value "conductivity" = .error e →
      (pollProbe st mac plant p).miflora_errors mac plant
          = st.miflora_errors mac plant + 1 ∧
      (pollProbe st mac plant p).miflora_battery_level_pct plant = some b ∧
      (pollProbe st mac plant p).miflora_conductivity = st.miflora_conductivity ∧
      (pollProbe st mac plant p).miflora_light = st.miflora_light ∧
      (pollProbe st mac plant p).miflora_moisture = st.miflora_moisture ∧
      (pollProbe st mac plant p).miflora_temperature_c
          = st.miflora_temperature_c) ∧
    (∀ b c e, p.battery_level = .ok b →
        p.parameter_value "conductivity" = .ok c →
        p.parameter_value "light" = .error e →
      (pollProbe st mac plant p).miflora_errors mac plant
          = st.miflora_errors mac plant + 1 ∧
      (pollProbe st mac plant p).miflora_battery_level_pct plant = some b ∧
      (pollProbe st mac plant p).miflora_conductivity plant = some c ∧
      (pollProbe st mac plant p).miflora_light = st.miflora_light ∧
      (pollProbe st mac plant p).miflora_moisture = st.miflora_moisture ∧
      (pollProbe st mac plant p).miflora_temperature_c
          = st.miflora_temperature_c) ∧
    (∀ b c li e, p.battery_level = .ok b →
        p.parameter_value "conductivity" = .ok c →
        p.parameter_value "light" = .ok li →
        p.parameter_value "moisture" = .error e →
      (pollProbe st mac plant p).miflora_errors mac plant
          = st.miflora_errors mac plant + 1 ∧
      (pollProbe st mac plant p).miflora_battery_level_pct plant = some b ∧
      (pollProbe st mac plant p).miflora_conductivity plant = some c ∧
      (pollProbe st mac plant p).miflora_light plant = some li ∧
      (pollProbe st mac plant p).miflora_moisture = st.miflora_moisture ∧
      (pollProbe st mac plant p).miflora_temperature_c
          = st.miflora_temperature_c) ∧
    (∀ b c li mo e, p.battery_level = .ok b →
        p.parameter_value "conductivity" = .ok c →
        p.parameter_value "light" = .ok li →
        p.parameter_value "moisture" = .ok mo →
        p.parameter_value "temperature" = .error e →
      (pollProbe st mac plant p).miflora_errors mac plant
          = st.miflora_errors mac plant + 1 ∧
      (pollProbe st mac plant p).miflora_battery_level_pct plant = some b ∧
      (pollProbe st mac plant p).miflora_conductivity plant = some c ∧
      (pollProbe st mac plant p).miflora_light plant = some li ∧
      (pollProbe st mac plant p).miflora_moisture plant = some mo ∧
      (pollProbe st mac plant p).miflora_temperature_c
          = st.miflora_temperature_c) := by
  refine ⟨?_, ?_, ?_, ?_, ?_⟩
  · intro e hb
    simp [pollProbe, hb, logError, incError]
  · intro b e hb hc
    simp [pollProbe, hb, hc, logError, incError, setBattery]
  · intro b c e hb hc hl
    simp [pollProbe, hb, hc, hl, logError, incError, setBattery,
      setConductivity]
  · intro b c li e hb hc hl hm
    simp [pollProbe, hb, hc, hl, hm, logError, incError, setBattery,
      setConductivity, setLight]
  · intro b c li mo e hb hc hl hm ht
    simp [pollProbe, hb, hc, hl, hm, ht, logError, incError, setBattery,
      setConductivity, setLight, setMoisture]

/-- A probe whose conductivity read raises after a successful battery
read, for witnesses. -/
def pollerCondFails : Poller where
  firmware_version := .error "could not connect"
  battery_level := .ok 80
  parameter_value := fun s =>
    if s = "conductivity" then .error "read timed out" else .ok 5

theorem C1_no_per_read_fault_isolation_witness :
    (pollProbe startMetrics "C4:7A:00:00:00:02" "basil" pollerCondFails).miflora_errors
        "C4:7A:00:00:00:02" "basil"
      = startMetrics.miflora_errors "C4:7A:00:00:00:02" "basil" + 1 ∧
    (pollProbe startMetrics "C4:7A:00:00:00:02" "basil" pollerCondFails).miflora_battery_level_pct
        "basil" = some 80 ∧
    (pollProbe startMetrics "C4:7A:00:00:00:02" "basil" pollerCondFails).miflora_conductivity
      = startMetrics.miflora_conductivity ∧
    (pollProbe startMetrics "C4:7A:00:00:00:02" "basil" pollerCondFails).miflora_light
      = startMetrics.miflora_light ∧
    (pollProbe startMetrics "C4:7A:00:00:00:02" "basil" pollerCondFails).miflora_moisture
      = startMetrics.miflora_moisture ∧
    (pollProbe startMetrics "C4:7A:00:00:00:02" "basil" pollerCondFails).miflora_temperature_c
      = startMetrics.miflora_temperature_c :=
  (C1_no_per_read_fault_isolation startMetrics "C4:7A:00:00:00:02" "basil"
    pollerCondFails).2.1 80 "read timed out" rfl rfl

/-- Splitting one pass over the pollers list at a designated probe. -/
theorem pollCycle_append_cons (st : Metrics)
    (l₁ l₂ : List (String × String × Poller)) (mac plant : String)
    (p : Poller) :
    pollCycle st (l₁ ++ (mac, plant, p) :: l₂)
      = pollCycle (pollProbe (pollCycle st l₁) mac plant p) l₂ := by
  simp [pollCycle, List.foldl_append]

/-- C5: every per-probe failure is contained in the cycle.  Whatever the
outcome of the reads of one probe, the remaining probes of the cycle are still
attempted in registry order (first conjunct); a probe any of whose reads
raises contributes exactly one error-counter increment and one error log
line (second conjunct); and the cycle ends in the fixed 600-second sleep
(third conjunct). -/
theorem C5_probe_failures_contained (st : Metrics)
    (l₁ l₂ : List (String × String × Poller)) (mac plant : String)
    (p : Poller) :
    pollCycle st (l₁ ++ (mac, plant, p) :: l₂)
      = pollCycle (pollProbe (pollCycle st l₁) mac plant p) l₂ ∧
    (readsOk p = false →
      (pollProbe st mac plant p).miflora_errors mac plant
          = st.miflora_errors mac plant + 1 ∧
      ∃ e, (pollProbe st mac plant p).logs
          = st.logs ++ [LogEntry.couldNotRead mac plant e]) ∧
    (loopBody st (l₁ ++ (mac, plant, p) :: l₂)).2 = 600 := by
  refine ⟨pollCycle_append_cons st l₁ l₂ mac plant p, ?_, rfl⟩
  intro hfail
  cases hb : p.battery_level with
  | error e => exact ⟨by simp [pollProbe, hb, logError, incError],
      e, by simp [pollProbe, hb, logError, incError]⟩
  | ok b =>
    cases hc : p.parameter_value "conductivity" with
    | error e => exact ⟨by simp [pollProbe, hb, hc, logError, incError, setBattery],
        e, by simp [pollProbe, hb, hc, logError, incError, setBattery]⟩
    | ok c =>
      cases hl : p.parameter_value "light" with
      | error e => exact ⟨by simp [pollProbe, hb, hc, hl, logError, incError,
            setBattery, setConductivity],
          e, by simp [pollProbe, hb, hc, hl, logError, incError, setBattery,
            setConductivity]⟩
      | ok li =>
        cases hm : p.parameter_value "moisture" with
        | error e => exact ⟨by simp [pollProbe, hb, hc, hl, hm, logError,
              incError, setBattery, setConductivity, setLight],
            e, by simp [pollProbe, hb, hc, hl, hm, logError, incError,
              setBattery, setConductivity, setLight]⟩
        | ok mo =>
          cases ht : p.parameter_value "temperature" with
          | error e => exact ⟨by simp [pollProbe, hb, hc, hl, hm, ht, logError,
                incError, setBattery, setConductivity, setLight, setMoisture],
              e, by simp [pollProbe, hb, hc, hl, hm, ht, logError, incError,
                setBattery, setConductivity, setLight, setMoisture]⟩
          | ok t =>
            exact absurd hfail (by simp [readsOk, readOk, hb, hc, hl, hm, ht])

theorem C5_probe_failures_contained_witness :
    readsOk pollerCondFails = false ∧
    (pollProbe startMetrics "C4:7A:00:00:00:02" "mint" pollerCondFails).miflora_errors
        "C4:7A:00:00:00:02" "mint"
      = startMetrics.miflora_errors "C4:7A:00:00:00:02" "mint" + 1 ∧
    ∃ e, (pollProbe startMetrics "C4:7A:00:00:00:02" "mint" pollerCondFails).logs
      = startMetrics.logs ++ [LogEntry.couldNotRead "C4:7A:00:00:00:02" "mint" e] :=
  ⟨rfl,
    ((C5_probe_failures_contained startMetrics [] [] "C4:7A:00:00:00:02" "mint"
        pollerCondFails).2.1 rfl).1,
    ((C5_probe_failures_contained startMetrics [] [] "C4:7A:00:00:00:02" "mint"
        pollerCondFails).2.1 rfl).2⟩

/-- Splitting the firmware-initialization loop at a designated probe. -/
theorem initAll_append_cons (st : Metrics)
    (l₁ l₂ : List (String × String × Poller)) (mac plant : String)
    (p : Poller) :
    initAll st (l₁ ++ (mac, plant, p) :: l₂)
      = initAll (initProbe (initAll st l₁) mac plant p) l₂ := by
  simp [initAll, List.foldl_append]

/-- C7: firmware initialization is per-probe and non-fatal.  On success
the firmware gauge for (plant, version) is set to 1; on failure the error
counter for (identifier, plant) grows by 1, the failure is logged (before
the per-probe info line), and the firmware gauge is untouched.  The probe
is processed in registry-order position during initialization, and it is
still attempted within every subsequent steady-state cycle, since both
loops run over the same unmodified pollers list. -/
theorem C7_firmware_failure_nonfatal (st : Metrics) (mac plant : String)
    (p : Poller) (l₁ l₂ : List (String × String × Poller)) :
    (∀ v, p.firmware_version = .ok v →
      (initProbe st mac plant p).miflora_firmware_version plant v = some 1) ∧
    (∀ e, p.firmware_version = .error e →
      (initProbe st mac plant p).miflora_errors mac plant
          = st.miflora_errors mac plant + 1 ∧
      (initProbe st mac plant p).miflora_firmware_version
          = st.miflora_firmware_version ∧
      (initProbe st mac plant p).logs
          = st.logs ++ [LogEntry.couldNotRead mac plant e,
              LogEntry.infoInit plant mac]) ∧
    (initAll st (l₁ ++ (mac, plant, p) :: l₂)
      = initAll (initProbe (initAll st l₁) mac plant p) l₂) ∧
    (∀ n, runCycles (l₁ ++ (mac, plant, p) :: l₂) st (n + 1)
      = runCycles (l₁ ++ (mac, plant, p) :: l₂)
          (pollCycle (pollProbe (pollCycle st l₁) mac plant p) l₂) n) := by
  refine ⟨?_, ?_, initAll_append_cons st l₁ l₂ mac plant p, ?_⟩
  · intro v hv
    simp [initProbe, hv, setFirmware]
  · intro e he
    simp [initProbe, he, logError, incError]
  · intro n
    simp [runCycles, loopBody, pollCycle_append_cons]

theorem C7_firmware_failure_nonfatal_witness :
    (initProbe startMetrics "C4:7A:00:00:00:01" "rose" pollerGood).miflora_firmware_version
        "rose" "3.2.1" = some 1 ∧
    (initProbe startMetrics "C4:7A:00:00:00:02" "basil" pollerCondFails).miflora_errors
        "C4:7A:00:00:00:02" "basil"
      = startMetrics.miflora_errors "C4:7A:00:00:00:02" "basil" + 1 ∧
    (initProbe startMetrics "C4:7A:00:00:00:02" "basil" pollerCondFails).miflora_firmware_version
      = startMetrics.miflora_firmware_version ∧
    (initProbe startMetrics "C4:7A:00:00:00:02" "basil" pollerCondFails).logs
      = startMetrics.logs ++ [LogEntry.couldNotRead "C4:7A:00:00:00:02" "basil"
          "could not connect", LogEntry.infoInit "basil" "C4:7A:00:00:00:02"] :=
  ⟨(C7_firmware_failure_nonfatal startMetrics "C4:7A:00:00:00:01" "rose"
      pollerGood [] []).1 "3.2.1" rfl,
   (C7_firmware_failure_nonfatal startMetrics "C4:7A:00:00:00:02" "basil"
      pollerCondFails [] []).2.1 "could not connect" rfl⟩

/-- C10: two registry entries with distinct identifiers but the same
plant name share every gauge for that plant.  Mid-cycle the earlier probe
writes its own readings; after the full cycle every one of the five
gauges holds the reading of the later probe, the values of the earlier one having
been silently overwritten.  The firmware gauge family of the shared plant
likewise receives the initialization writes of both probes. -/
theorem C10_shared_plant_name_gauges_collide (st : Metrics)
    (mac1 mac2 plant : String) (p1 p2 : Poller)
    (b1 c1 li1 mo1 t1 b2 c2 li2 mo2 t2 : Int) (v1 v2 : String)
    (hb1 : p1.battery_level = .ok b1)
    (hc1 : p1.parameter_value "conductivity" = .ok c1)
    (hl1 : p1.parameter_value "light" = .ok li1)
    (hm1 : p1.parameter_value "moisture" = .ok mo1)
    (ht1 : p1.parameter_value "temperature" = .ok t1)
    (hv1 : p1.firmware_version = .ok v1)
    (hb2 : p2.battery_level = .ok b2)
    (hc2 : p2.parameter_value "conductivity" = .ok c2)
    (hl2 : p2.parameter_value "light" = .ok li2)
    (hm2 : p2.parameter_value "moisture" = .ok mo2)
    (ht2 : p2.parameter_value "temperature" = .ok t2)
    (hv2 : p2.firmware_version = .ok v2) :
    (pollProbe st mac1 plant p1).miflora_battery_level_pct plant = some b1 ∧
    (pollProbe st mac1 plant p1).miflora_temperature_c plant = some t1 ∧
    (pollCycle st [(mac1, plant, p1), (mac2, plant, p2)]).miflora_battery_level_pct
        plant = some b2 ∧
    (pollCycle st [(mac1, plant, p1), (mac2, plant, p2)]).miflora_conductivity
        plant = some c2 ∧
    (pollCycle st [(mac1, plant, p1), (mac2, plant, p2)]).miflora_light
        plant = some li2 ∧
    (pollCycle st [(mac1, plant, p1), (mac2, plant, p2)]).miflora_moisture
        plant = some mo2 ∧
    (pollCycle st [(mac1, plant, p1), (mac2, plant, p2)]).miflora_temperature_c
        plant = some t2 ∧
    (initAll st [(mac1, plant, p1), (mac2, plant, p2)]).miflora_firmware_version
        plant v1 = some 1 ∧
    (initAll st [(mac1, plant, p1), (mac2, plant, p2)]).miflora_firmware_version
        plant v2 = some 1 := by
  refine ⟨?_, ?_, ?_, ?_, ?_, ?_, ?_, ?_, ?_⟩ <;>
    simp [pollCycle, initAll, initProbe, pollProbe, hb1, hc1, hl1, hm1, ht1,
      hv1, hb2, hc2, hl2, hm2, ht2, hv2, setBattery, setConductivity, setLight,
      setMoisture, setTemperature, setFirmware]

/-- A second all-successful probe with readings distinct from
`pollerGood`, for witnesses. -/
def pollerGood2 : Poller where
  firmware_version := .ok "2.7.0"
  battery_level := .ok 50
  parameter_value := fun s =>
    if s = "conductivity" then .ok 60
    else if s = "light" then .ok 70
    else if s = "moisture" then .ok 8
    else if s = "temperature" then .ok 19
    else .error "unknown parameter"

theorem C10_shared_plant_name_gauges_collide_witness :
    (pollProbe startMetrics "C4:7A:00:00:00:01" "rose" pollerGood).miflora_battery_level_pct
        "rose" = some 95 ∧
    (pollProbe startMetrics "C4:7A:00:00:00:01" "rose" pollerGood).miflora_temperature_c
        "rose" = some 21 ∧
    (pollCycle startMetrics [("C4:7A:00:00:00:01", "rose", pollerGood),
        ("C4:7A:00:00:00:03", "rose", pollerGood2)]).miflora_battery_level_pct
        "rose" = some 50 ∧
    (pollCycle startMetrics [("C4:7A:00:00:00:01", "rose", pollerGood),
        ("C4:7A:00:00:00:03", "rose", pollerGood2)]).miflora_conductivity
        "rose" = some 60 ∧
    (pollCycle startMetrics [("C4:7A:00:00:00:01", "rose", pollerGood),
        ("C4:7A:00:00:00:03", "rose", pollerGood2)]).miflora_light
        "rose" = some 70 ∧
    (pollCycle startMetrics [("C4:7A:00:00:00:01", "rose", pollerGood),
        ("C4:7A:00:00:00:03", "rose", pollerGood2)]).miflora_moisture
        "rose" = some 8 ∧
    (pollCycle startMetrics [("C4:7A:00:00:00:01", "rose", pollerGood),
        ("C4:7A:00:00:00:03", "rose", pollerGood2)]).miflora_temperature_c
        "rose" = some 19 ∧
    (initAll startMetrics [("C4:7A:00:00:00:01", "rose", pollerGood),
        ("C4:7A:00:00:00:03", "rose", pollerGood2)]).miflora_firmware_version
        "rose" "3.2.1" = some 1 ∧
    (initAll startMetrics [("C4:7A:00:00:00:01", "rose", pollerGood),
        ("C4:7A:00:00:00:03", "rose", pollerGood2)]).miflora_firmware_version
        "rose" "2.7.0" = some 1 :=
  C10_shared_plant_name_gauges_collide startMetrics "C4:7A:00:00:00:01"
    "C4:7A:00:00:00:03" "rose" pollerGood pollerGood2 95 120 300 40 21 50 60 70
    8 19 "3.2.1" "2.7.0" rfl rfl rfl rfl rfl rfl rfl rfl rfl rfl rfl rfl

/-- Every event emitted by the discovery path is the BLE scan or a
printed line. -/
theorem scan_events_shape (plants : List (String × String))
    (scanResult : List String) :
    ∀ ev ∈ scan_for_new_devices plants scanResult,
      ev = Event.bleScan ∨ ∃ s, ev = Event.printLine s := by
  intro ev hev
  simp only [scan_for_new_devices, List.mem_cons] at hev
  rcases hev with rfl | hev
  · exact Or.inl rfl
  · right
    split at hev
    · simp only [List.mem_singleton] at hev
      exact ⟨_, hev⟩
    · simp only [List.mem_map] at hev
      obtain ⟨m, -, rfl⟩ := hev
      exact ⟨_, rfl⟩

/-- C3: a registry file that is missing, unreadable, unparseable as JSON,
or whose top-level value is not an object makes the loader fail with a
`ConfigError`; `main` then dies with that error before the metrics HTTP
server is ever started. -/
theorem C3_bad_registry_fatal_before_server (fileRes : ReadResult)
    (scanFlag : Bool) (port : Nat) (scanResult : List String)
    (pollerOf : String → Poller)
    (h : fileRes = ReadResult.readFailure ∨ fileRes = ReadResult.parseFailure ∨
      ∃ j, fileRes = ReadResult.parsed j ∧ j.isObj = false) :
    (∃ e, load_plants fileRes = Except.error e) ∧
    (∃ e, mainRun fileRes scanFlag port scanResult pollerOf
        = ([], MainResult.configError e)) ∧
    ∀ q, Event.serverStart q ∉ (mainRun fileRes scanFlag port scanResult pollerOf).1 := by
  rcases h with rfl | rfl | ⟨j, rfl, hobj⟩
  · exact ⟨⟨_, rfl⟩, ⟨_, rfl⟩, by simp [mainRun, load_plants]⟩
  · exact ⟨⟨_, rfl⟩, ⟨_, rfl⟩, by simp [mainRun, load_plants]⟩
  · cases j
    case obj kvs => simp [Json.isObj] at hobj
    all_goals exact ⟨⟨_, rfl⟩, ⟨_, rfl⟩, by simp [mainRun, load_plants]⟩

theorem C3_bad_registry_fatal_before_server_witness :
    (∃ e, load_plants (ReadResult.parsed (Json.arr [])) = Except.error e) ∧
    (∃ e, mainRun (ReadResult.parsed (Json.arr [])) false 9004 []
        (fun _ => pollerGood) = ([], MainResult.configError e)) ∧
    ∀ q, Event.serverStart q
      ∉ (mainRun (ReadResult.parsed (Json.arr [])) false 9004 []
          (fun _ => pollerGood)).1 :=
  C3_bad_registry_fatal_before_server (ReadResult.parsed (Json.arr [])) false
    9004 [] (fun _ => pollerGood) (Or.inr (Or.inr ⟨Json.arr [], rfl, rfl⟩))

/-- C9: scan mode loads and validates the registry before any BLE scan,
so a missing, unparseable or non-object registry file makes scan mode die
with the `ConfigError` without the scan ever being attempted. -/
theorem C9_scan_mode_requires_valid_registry (fileRes : ReadResult)
    (port : Nat) (scanResult : List String) (pollerOf : String → Poller)
    (h : fileRes = ReadResult.readFailure ∨ fileRes = ReadResult.parseFailure ∨
      ∃ j, fileRes = ReadResult.parsed j ∧ j.isObj = false) :
    (∃ e, mainRun fileRes true port scanResult pollerOf
        = ([], MainResult.configError e)) ∧
    Event.bleScan ∉ (mainRun fileRes true port scanResult pollerOf).1 := by
  rcases h with rfl | rfl | ⟨j, rfl, hobj⟩
  · exact ⟨⟨_, rfl⟩, by simp [mainRun, load_plants]⟩
  · exact ⟨⟨_, rfl⟩, by simp [mainRun, load_plants]⟩
  · cases j
    case obj kvs => simp [Json.isObj] at hobj
    all_goals exact ⟨⟨_, rfl⟩, by simp [mainRun, load_plants]⟩

theorem C9_scan_mode_requires_valid_registry_witness :
    (∃ e, mainRun (ReadResult.parsed (Json.num 5)) true 9004 ["AA:BB"]
        (fun _ => pollerGood) = ([], MainResult.configError e)) ∧
    Event.bleScan ∉ (mainRun (ReadResult.parsed (Json.num 5)) true 9004
        ["AA:BB"] (fun _ => pollerGood)).1 :=
  C9_scan_mode_requires_valid_registry (ReadResult.parsed (Json.num 5)) 9004
    ["AA:BB"] (fun _ => pollerGood) (Or.inr (Or.inr ⟨Json.num 5, rfl, rfl⟩))

/-- C8: with the scan flag set and a valid registry file, `main` performs
the one-shot discovery scan and returns normally (exit 0); the trace
holds only the scan and the printed result lines — the HTTP server is
never started, no poller is constructed, and the polling loop is never
entered. -/
theorem C8_scan_mode_one_shot (kvs : List (String × String)) (port : Nat)
    (scanResult : List String) (pollerOf : String → Poller) :
    mainRun (ReadResult.parsed (Json.obj kvs)) true port scanResult pollerOf
      = (scan_for_new_devices kvs scanResult, MainResult.scanExit) ∧
    ∀ ev ∈ (mainRun (ReadResult.parsed (Json.obj kvs)) true port scanResult
        pollerOf).1,
      ev = Event.bleScan ∨ ∃ s, ev = Event.printLine s := by
  refine ⟨rfl, ?_⟩
  intro ev hev
  exact scan_events_shape kvs scanResult ev hev

theorem C8_scan_mode_one_shot_witness :
    mainRun (ReadResult.parsed (Json.obj [("AA:BB", "fern")])) true 9004
        ["CC:DD"] (fun _ => pollerGood)
      = (scan_for_new_devices [("AA:BB", "fern")] ["CC:DD"],
         MainResult.scanExit) ∧
    (Event.printLine "new device: CC:DD" = Event.bleScan ∨
      ∃ s, Event.printLine "new device: CC:DD" = Event.printLine s) :=
  ⟨(C8_scan_mode_one_shot [("AA:BB", "fern")] 9004 ["CC:DD"]
      (fun _ => pollerGood)).1,
   (C8_scan_mode_one_shot [("AA:BB", "fern")] 9004 ["CC:DD"]
      (fun _ => pollerGood)).2 (Event.printLine "new device: CC:DD")
      (by decide)⟩

/-- Appending after a fixed first string is injective. -/
theorem appendLeft_injective (s : String) :
    Function.Injective fun t => s ++ t := by
  intro a b h
  apply String.ext
  have h2 := congrArg String.data h
  simp only [String.data_append] at h2
  exact List.append_cancel_left h2

/-- A `filterMap` with an always-`some` function is a `map`. -/
theorem filterMap_some_comp {α β : Type} (f : α → β) (l : List α) :
    l.filterMap (fun x => some (f x)) = l.map f := by
  induction l with
  | nil => rfl
  | cons a t ih => simp [List.filterMap_cons, ih]

/-- The identifiers the scan reports, as a finite set, are exactly the
set difference of the scanned identifiers and the registry keys. -/
theorem new_macs_toFinset (plants : List (String × String))
    (scanResult : List String) :
    (new_macs plants scanResult).toFinset
      = scanResult.toFinset \ (plants.map Prod.fst).toFinset := by
  ext x
  simp [new_macs, List.mem_filter, List.mem_dedup, and_comm]

/-- C6: Discovery Mode reports exactly the set difference between the
scanned identifiers and the known identifiers of the registry: when the
difference is empty it prints the single no-new-devices message, and
otherwise it prints exactly one line per identifier in the difference
(no duplicates, one line each, nothing else). -/
theorem C6_discovery_reports_set_difference (plants : List (String × String))
    (scanResult : List String) :
    (scanResult.toFinset \ (plants.map Prod.fst).toFinset = ∅ →
      printedLines (scan_for_new_devices plants scanResult)
        = ["no new devices detected"]) ∧
    (scanResult.toFinset \ (plants.map Prod.fst).toFinset ≠ ∅ →
      (printedLines (scan_for_new_devices plants scanResult)).Nodup ∧
      (printedLines (scan_for_new_devices plants scanResult)).toFinset
        = (scanResult.toFinset \ (plants.map Prod.fst).toFinset).image
            (fun m => "new device: " ++ m) ∧
      (printedLines (scan_for_new_devices plants scanResult)).length
        = (scanResult.toFinset \ (plants.map Prod.fst).toFinset).card) := by
  have hfin := new_macs_toFinset plants scanResult
  have hnd : (new_macs plants scanResult).Nodup :=
    (List.nodup_dedup scanResult).filter _
  constructor
  · intro hempty
    have hnil : new_macs plants scanResult = [] := by
      rw [← List.toFinset_eq_empty_iff, hfin]
      exact hempty
    simp [scan_for_new_devices, printedLines, hnil]
  · intro hne
    have hnenil : new_macs plants scanResult ≠ [] := by
      intro hnil
      exact hne (by rw [← hfin, hnil, List.toFinset_nil])
    have hlines : printedLines (scan_for_new_devices plants scanResult)
        = (new_macs plants scanResult).map
            (fun m => "new device: " ++ m) := by
      simp [scan_for_new_devices, printedLines, List.length_eq_zero, hnenil,
        List.filterMap_map, Function.comp_def, filterMap_some_comp]
    rw [hlines]
    refine ⟨hnd.map (appendLeft_injective "new device: "), ?_, ?_⟩
    · rw [← hfin]
      ext x
      simp
    · rw [List.length_map, ← hfin,
        List.toFinset_card_of_nodup hnd]

theorem C6_discovery_reports_set_difference_witness :
    printedLines (scan_for_new_devices [("A", "pa"), ("B", "pb")] ["A", "B"])
      = ["no new devices detected"] ∧
    (printedLines (scan_for_new_devices [("A", "pa"), ("B", "pb")]
        ["A", "B", "C"])).Nodup ∧
    (printedLines (scan_for_new_devices [("A", "pa"), ("B", "pb")]
        ["A", "B", "C"])).toFinset
      = ((["A", "B", "C"] : List String).toFinset \
          (([("A", "pa"), ("B", "pb")] : List (String × String)).map
            Prod.fst).toFinset).image (fun m => "new device: " ++ m) ∧
    (printedLines (scan_for_new_devices [("A", "pa"), ("B", "pb")]
        ["A", "B", "C"])).length
      = ((["A", "B", "C"] : List String).toFinset \
          (([("A", "pa"), ("B", "pb")] : List (String × String)).map
            Prod.fst).toFinset).card :=
  ⟨(C6_discovery_reports_set_difference [("A", "pa"), ("B", "pb")]
      ["A", "B"]).1 (by decide),
   (C6_discovery_reports_set_difference [("A", "pa"), ("B", "pb")]
      ["A", "B", "C"]).2 (by decide)⟩
